import Mathlib

/-!
Verification of the LLM-Judge evaluation engine.

A shallow embedding in Lean 4 of the judge evaluation engine and the
meta-evaluation subsystem of the German e-commerce conversation evaluator:

* `src/judge/models.py` — the data model (dataclasses);
* `src/judge/engine.py` — `_parse_response`, `_create_error_result`,
  `evaluate_batch`;
* `src/judge/rubrics/rubric_loader.py` — `DEFAULT_RUBRIC`, `RubricLoader.load`;
* `src/judge/languagetool.py` — `check_text`, `enhance_evaluation`;
* `src/backend/app/services/meta_evaluation_service.py` — `calculate_metrics`,
  `_check_calibration_needed`, `_generate_recommendations`.

Python floats are modelled by `ℚ` (the arithmetic in all the properties of
interest is exact), JSON values decoded by `json.loads` by the inductive
`JVal`, and Python dicts by association lists with unique keys (which is what
`json.loads` and the code's dict literals produce).  External collaborators
(the HTTP model client, `json.loads` itself, and the scipy/sklearn statistics)
enter as explicit oracle parameters, so every theorem quantifies over their
behaviour.
-/

/-- A decoded JSON value, as returned by Python's `json.loads`:
`None`, booleans, numbers, strings, lists and objects.  Objects are
association lists with unique keys in insertion order (the shape `json.loads`
produces after its last-key-wins de-duplication). -/
inductive JVal where
  | null : JVal
  | bool (b : Bool) : JVal
  | num (q : ℚ) : JVal
  | str (s : String) : JVal
  | arr (xs : List JVal) : JVal
  | obj (fields : List (String × JVal)) : JVal

/-- The Python exceptions that the parser can actually raise past
`json.loads`: attribute errors from calling `.get`/`.items` on a non-dict,
and type errors from doing arithmetic on a non-number. -/
inductive PyError where
  | attributeError : PyError
  | typeError : PyError
deriving DecidableEq

/-- Python `d.get(key, default)`: on a dict, the stored value when the key is
present (even when the stored value is `null`), the default otherwise; on any
non-dict value an `AttributeError` is raised. -/
def pyDictGet (j : JVal) (key : String) (dflt : JVal) : Except PyError JVal :=
  match j with
  | .obj fields => pure ((fields.lookup key).getD dflt)
  | _ => .error .attributeError

/-- Python `d.items()`: the key/value pairs of a dict in insertion order; an
`AttributeError` on any non-dict value. -/
def pyItems (j : JVal) : Except PyError (List (String × JVal)) :=
  match j with
  | .obj fields => pure fields
  | _ => .error .attributeError

/-- Numeric coercion of a JSON value, as Python arithmetic performs it:
numbers are themselves, booleans are 0/1 (Python `bool` is an `int`
subclass), anything else raises a `TypeError`.  The engine stores the raw
`score` value and Python would only raise at the weighted-sum arithmetic;
coercing at construction moves that error earlier but to the same
`Except`-level outcome on every code path a theorem below touches. -/
def asScore (j : JVal) : Except PyError ℚ :=
  match j with
  | .num q => pure q
  | .bool b => pure (if b then 1 else 0)
  | _ => .error .typeError

/-! ## Data model (`src/judge/models.py`) -/

/-- Model of `RubricDimension`: a single dimension in an evaluation rubric. -/
structure RubricDimension where
  name : String
  weight : ℚ
  description : String
  scoring_guidelines : List (ℕ × String)

/-- Model of `Rubric`: evaluation rubric configuration.  `dimensions` is a dict
(association list, unique keys, insertion order). -/
structure Rubric where
  name : String
  version : String
  description : String
  dimensions : List (String × RubricDimension)
  few_shot_examples : List JVal := []
  calibration_notes : String := ""

/-- Model of `DimensionScore`: score for a single evaluation dimension.  `reasoning`
and `evidence` hold whatever JSON value the model supplied (the Python
dataclass does not coerce them). -/
structure DimensionScore where
  score : ℚ
  weight : ℚ
  reasoning : JVal
  evidence : JVal

/-- Model of `ChainOfThought`: the judge's structured reasoning; the parser stores
the raw JSON values with string defaults. -/
structure ChainOfThought where
  context_analysis : JVal
  response_analysis : JVal
  legal_check : JVal
  language_assessment : JVal

/-- Model of `EvaluationFlags`: three independent flags; the parser stores the raw
JSON values with `False` defaults. -/
structure EvaluationFlags where
  critical_error : JVal := .bool false
  compliance_issue : JVal := .bool false
  escalation_needed : JVal := .bool false

/-- Model of `EvaluationResult`: complete evaluation result from the judge. -/
structure EvaluationResult where
  conversation_id : String
  overall_score : ℚ
  dimension_scores : List (String × DimensionScore)
  chain_of_thought : ChainOfThought
  summary : JVal
  improvement_suggestions : JVal
  flags : EvaluationFlags
  model_name : String
  rubric_version : String
  processing_time_ms : ℕ
  raw_response : Option String

/-- Model of `Conversation`: a customer support conversation.  The `datetime`
timestamp is modelled as an integer tick count; the engine never reads it. -/
structure Conversation where
  id : String
  category : String
  timestamp : ℤ
  messages : List JVal
  metadata : List (String × JVal) := []

/-! ## The built-in default rubric (`src/judge/rubrics/rubric_loader.py`) -/

/-- Transcription of `DEFAULT_RUBRIC`, the hardcoded module-level default rubric. -/
def DEFAULT_RUBRIC : Rubric where
  name := "default_rubric"
  version := "1.0.0"
  description := "Standard evaluation rubric for German e-commerce customer support"
  dimensions :=
    [ ("accuracy",
        { name := "Accuracy"
          weight := 0.25
          description := "Factual correctness of product/policy information"
          scoring_guidelines :=
            [ (1, "Multiple factual errors, incorrect product/policy information")
            , (2, "Some factual errors or incomplete information")
            , (3, "Mostly accurate with minor issues")
            , (4, "Accurate information with good detail")
            , (5, "Completely accurate, comprehensive, and precise") ] })
    , ("tone",
        { name := "Tone"
          weight := 0.20
          description := "Professional, helpful, empathetic communication style"
          scoring_guidelines :=
            [ (1, "Rude, dismissive, or inappropriate tone")
            , (2, "Cold or impersonal, lacks empathy")
            , (3, "Neutral and professional but not warm")
            , (4, "Friendly, helpful, and empathetic")
            , (5, "Excellent rapport, perfectly balanced professionalism and warmth") ] })
    , ("compliance",
        { name := "Compliance"
          weight := 0.20
          description := "Adherence to legal requirements (Widerrufsrecht, DSGVO, etc.)"
          scoring_guidelines :=
            [ (1, "Violates legal requirements or provides illegal advice")
            , (2, "Missing required legal information")
            , (3, "Basic compliance but could be more thorough")
            , (4, "Good compliance with relevant regulations")
            , (5, "Excellent compliance, proactively addresses legal aspects") ] })
    , ("completeness",
        { name := "Completeness"
          weight := 0.15
          description := "Full resolution of customer inquiry"
          scoring_guidelines :=
            [ (1, "Does not address the customer's question")
            , (2, "Partially addresses the inquiry, missing key points")
            , (3, "Addresses main question but misses some details")
            , (4, "Thoroughly addresses the inquiry")
            , (5, "Comprehensive response anticipating follow-up questions") ] })
    , ("language_quality",
        { name := "Language Quality"
          weight := 0.10
          description := "German grammar, spelling, and natural phrasing"
          scoring_guidelines :=
            [ (1, "Many grammar/spelling errors, unnatural phrasing")
            , (2, "Noticeable errors affecting readability")
            , (3, "Minor errors, generally readable")
            , (4, "Good German with rare minor issues")
            , (5, "Flawless German, natural and professional") ] })
    , ("efficiency",
        { name := "Efficiency"
          weight := 0.10
          description := "Concise responses without unnecessary verbosity"
          scoring_guidelines :=
            [ (1, "Extremely verbose or too brief to be useful")
            , (2, "Unnecessarily long or missing important details")
            , (3, "Adequate length but could be more concise")
            , (4, "Well-balanced, appropriately detailed")
            , (5, "Perfectly concise, every word serves a purpose") ] }) ]
  few_shot_examples :=
    [ .obj
        [ ("conversation", .arr
            [ .obj [ ("role", .str "customer")
                   , ("content", .str "Ich möchte meine Bestellung stornieren.") ]
            , .obj [ ("role", .str "chatbot")
                   , ("content", .str "Gerne helfe ich Ihnen bei der Stornierung. Könnten Sie mir bitte Ihre Bestellnummer mitteilen? Sie finden diese in Ihrer Bestellbestätigung. Bitte beachten Sie, dass eine kostenlose Stornierung innerhalb von 14 Tagen nach Bestellung gemäß Ihrem Widerrufsrecht möglich ist.") ] ])
        , ("evaluation", .obj
            [ ("overall_score", .num 0.85)
            , ("summary", .str "Helpful response that correctly addresses the cancellation request and mentions legal rights.") ]) ] ]
  calibration_notes := "\n## Calibration Guidelines\n- Score 3 should be the baseline for acceptable performance\n- Reserve 5 for truly exceptional responses\n- Consider context: complex inquiries may have lower completeness expectations\n- German language quality is important but shouldn't dominate the score\n- Compliance issues should be flagged even for minor violations\n"

/-! ## Python string primitives

Structurally recursive models of the Python `str` methods the engine calls
(`split`, `strip`, `in`), operating on the character list of a `String` so
that every concrete evaluation reduces. -/

/-- Splitting a character list at every non-overlapping occurrence of a
non-empty separator, scanning left to right — Python `s.split(sep)`.  The
fuel argument (instantiated with the list length) only makes the recursion
structural. -/
def pySplitAux (sep : List Char) : ℕ → List Char → List (List Char)
  | _, [] => [[]]
  | 0, s => [s]
  | fuel + 1, c :: cs =>
    if sep.isPrefixOf (c :: cs) then
      [] :: pySplitAux sep fuel ((c :: cs).drop sep.length)
    else
      match pySplitAux sep fuel cs with
      | [] => [[c]]
      | piece :: rest => (c :: piece) :: rest

/-- Python `s.split(sep)` for a non-empty separator. -/
def pySplit (s sep : String) : List String :=
  (pySplitAux sep.data s.data.length s.data).map (fun l => String.mk l)

/-- Python `pat in s` (substring containment) on character lists. -/
def listHasSublist (pat : List Char) : List Char → Bool
  | [] => pat.isEmpty
  | c :: cs => pat.isPrefixOf (c :: cs) || listHasSublist pat cs

/-- Python `s.strip()`: drop leading and trailing whitespace. -/
def pyStrip (s : String) : String :=
  String.mk (((s.data.dropWhile Char.isWhitespace).reverse.dropWhile
    Char.isWhitespace).reverse)

/-- Splitting a character list at every character satisfying `p`. -/
def splitPredAux (p : Char → Bool) : List Char → List (List Char)
  | [] => [[]]
  | c :: cs =>
    if p c then [] :: splitPredAux p cs
    else
      match splitPredAux p cs with
      | [] => [[c]]
      | piece :: rest => (c :: piece) :: rest

/-! ## Response parser (`src/judge/engine.py`, `_parse_response`) -/

/-- The markdown-fence stripping at the top of `_parse_response`:
`response.split("```json")[1].split("```")[0]` when a ` ```json ` fence is
present, else the same with a bare ` ``` ` fence, else the raw text.
`[1]` is the second piece of the split and `[0]` the piece before the first
separator. -/
def extractJson (response : String) : String :=
  match pySplit response "```json" with
  | _ :: piece :: _ => ((pySplit piece "```").headD piece)
  | _ =>
    match pySplit response "```" with
    | _ :: piece :: _ => ((pySplit piece "```").headD piece)
    | _ => response

/-- The body of the `for dim_name, dim_data in data.get("dimension_scores", {}).items()`
loop: the weight comes from the rubric when the dimension key is known there
and falls back to `0.1` otherwise (the model's own stated weight is never
read), and `score`/`reasoning`/`evidence` default to `3`/`""`/`[]`. -/
def parseDimEntry (rubric : Rubric) (dim_name : String) (dim_data : JVal) :
    Except PyError (String × DimensionScore) := do
  let weight : ℚ :=
    match rubric.dimensions.lookup dim_name with
    | some dim => dim.weight
    | none => 0.1
  let scoreJ ← pyDictGet dim_data "score" (.num 3)
  let score ← asScore scoreJ
  let reasoning ← pyDictGet dim_data "reasoning" (.str "")
  let evidence ← pyDictGet dim_data "evidence" (.arr [])
  pure (dim_name, ⟨score, weight, reasoning, evidence⟩)

/-- The dimension-score loop of `_parse_response`, in dict order,
fail-fast on the first raised exception. -/
def parseDimensions (rubric : Rubric) :
    List (String × JVal) → Except PyError (List (String × DimensionScore))
  | [] => pure []
  | (dim_name, dim_data) :: rest => do
    let d ← parseDimEntry rubric dim_name dim_data
    let ds ← parseDimensions rubric rest
    pure (d :: ds)

/-- The weighted-average overall score of `_parse_response`:
`sum((score/5)·weight) / sum(weight)` over the parsed dimensions when any
were parsed and the total weight is positive, `0.5` otherwise. -/
def computeOverallScore (dims : List (String × DimensionScore)) : ℚ :=
  if dims.isEmpty then 0.5
  else
    let total_weight := (dims.map (fun d => d.2.weight)).sum
    if 0 < total_weight then
      ((dims.map (fun d => d.2.score / 5 * d.2.weight)).sum) / total_weight
    else 0.5

/-- Model of `_create_error_result`: the structured error result manufactured when
evaluation or JSON decoding fails.  Note `raw_response := none`. -/
def create_error_result (conversation_id : String) (error : String) : EvaluationResult where
  conversation_id := conversation_id
  overall_score := 0.0
  dimension_scores := []
  chain_of_thought :=
    { context_analysis := .str ("Error: " ++ error)
      response_analysis := .str ""
      legal_check := .str ""
      language_assessment := .str "" }
  summary := .str ("Evaluation failed: " ++ error)
  improvement_suggestions := .arr []
  flags := { critical_error := .bool true }
  model_name := ""
  rubric_version := ""
  processing_time_ms := 0
  raw_response := none

/-- The part of `_parse_response` after `json.loads` succeeded (everything
past the `try`/`except`): field extraction with per-field defaults, the
weighted overall score, and the assembled result carrying the raw response
text.  The `Except` layer records the Python exceptions this code can raise
(`.get`/`.items` on non-dict values, arithmetic on non-numbers), which the
`except json.JSONDecodeError` clause does not catch. -/
def parseResponseDecoded (rubric : Rubric) (data : JVal)
    (response : String) (conversation_id : String) :
    Except PyError EvaluationResult := do
  let dimsJson ← pyDictGet data "dimension_scores" (.obj [])
  let dimItems ← pyItems dimsJson
  let dimension_scores ← parseDimensions rubric dimItems
  let overall_score := computeOverallScore dimension_scores
  let cotJ ← pyDictGet data "chain_of_thought" (.obj [])
  let context_analysis ← pyDictGet cotJ "context_analysis" (.str "")
  let response_analysis ← pyDictGet cotJ "response_analysis" (.str "")
  let legal_check ← pyDictGet cotJ "legal_check" (.str "")
  let language_assessment ← pyDictGet cotJ "language_assessment" (.str "")
  let flagsJ ← pyDictGet data "flags" (.obj [])
  let critical_error ← pyDictGet flagsJ "critical_error" (.bool false)
  let compliance_issue ← pyDictGet flagsJ "compliance_issue" (.bool false)
  let escalation_needed ← pyDictGet flagsJ "escalation_needed" (.bool false)
  let summary ← pyDictGet data "summary" (.str "")
  let improvement_suggestions ← pyDictGet data "improvement_suggestions" (.arr [])
  pure
    { conversation_id := conversation_id
      overall_score := overall_score
      dimension_scores := dimension_scores
      chain_of_thought :=
        { context_analysis := context_analysis
          response_analysis := response_analysis
          legal_check := legal_check
          language_assessment := language_assessment }
      summary := summary
      improvement_suggestions := improvement_suggestions
      flags :=
        { critical_error := critical_error
          compliance_issue := compliance_issue
          escalation_needed := escalation_needed }
      model_name := ""
      rubric_version := ""
      processing_time_ms := 0
      raw_response := some response }

/-- Model of `_parse_response`: fence stripping, `json.loads` (an external stdlib
collaborator, passed in as the oracle `jsonLoads`, which returns the decoded
value or the `JSONDecodeError` message), then either the error result of the
`except` clause or the field-extraction pipeline. -/
def parse_response (rubric : Rubric) (jsonLoads : String → Except String JVal)
    (response : String) (conversation_id : String) :
    Except PyError EvaluationResult :=
  match jsonLoads (pyStrip (extractJson response)) with
  | .error e => pure (create_error_result conversation_id ("JSON parse error: " ++ e))
  | .ok data => parseResponseDecoded rubric data response conversation_id

/-! ## Flag derivation pass -/

/-- Modelled from the spec: the flag pass `_apply_flags` of the judge engine.
The method is absent from `src/judge/engine.py` — only
`backend/tests/test_evaluation.py` calls it — so it is reconstructed from
spec §4.4 step 6: after parsing, if a dimension named "accuracy" is present
with score < 3 force `critical_error = true`, and if a dimension named
"compliance" is present with score < 5 force `compliance_issue = true`; each
forced flag ORs with (never replaces) the model-reported flag. -/
def apply_flags (result : EvaluationResult) : EvaluationResult :=
  let accuracy_low : Bool :=
    match result.dimension_scores.lookup "accuracy" with
    | some ds => decide (ds.score < 3)
    | none => false
  let compliance_low : Bool :=
    match result.dimension_scores.lookup "compliance" with
    | some ds => decide (ds.score < 5)
    | none => false
  { result with
      flags :=
        { critical_error :=
            if accuracy_low then .bool true else result.flags.critical_error
          compliance_issue :=
            if compliance_low then .bool true else result.flags.compliance_issue
          escalation_needed := result.flags.escalation_needed } }

/-! ## Batch orchestrator (`src/judge/engine.py`, `evaluate_batch`) -/

/-- Model of `evaluate_batch`: evaluates every conversation, passing
`include_few_shot and idx == 0` to the per-item evaluation for the
conversation at index `idx`, and gathers the results.  `asyncio.gather`
returns the per-task results in task submission order (its documented
contract) independently of completion order, so the batch is the in-order
map below; the semaphore and the progress counter only schedule the work and
never touch the result values.  The per-item evaluation (prompt build, model
call, parse, error-result fallback) is the function parameter `evaluate`. -/
def evaluate_batch (evaluate : Conversation → Bool → EvaluationResult)
    (conversations : List Conversation) (include_few_shot : Bool) :
    List EvaluationResult :=
  conversations.enum.map (fun p => evaluate p.2 (include_few_shot && p.1 == 0))

/-! ## Rubric loader (`src/judge/rubrics/rubric_loader.py`) -/

namespace RubricLoader

/-- Model of `RubricLoader.load`: the configs directory is modelled as an association
list mapping a rubric name to `some` rubric when `<name>.json` exists and
parses, and to `none` when the file exists but reading/parsing it raises; a
name absent from the list has no file.  The loader's `_cache` dict is
threaded explicitly; `load` returns the rubric together with the updated
cache.  The function is total: `load` never fails outward. -/
def load (fs : List (String × Option Rubric)) (cache : List (String × Rubric))
    (rubric_name : String) : Rubric × List (String × Rubric) :=
  match cache.lookup rubric_name with
  | some rubric => (rubric, cache)
  | none =>
    if rubric_name = "default_rubric" then
      (DEFAULT_RUBRIC, (rubric_name, DEFAULT_RUBRIC) :: cache)
    else
      match fs.lookup rubric_name with
      | some (some rubric) => (rubric, (rubric_name, rubric) :: cache)
      | some none => (DEFAULT_RUBRIC, cache)
      | none => (DEFAULT_RUBRIC, cache)

/-- Modelled from the spec: the fixed category→weight override table of
`RubricLoader.get_dimensions_for_category`.  The method is absent from
`src/judge/rubrics/rubric_loader.py` — only
`backend/tests/test_evaluation.py` calls it — so it is reconstructed from
spec §4.1: "retoure" boosts compliance to 0.25 and "beschwerde" boosts tone
to 0.30; the table is a fixed lookup, not part of the rubric file. -/
def categoryWeightOverrides : List (String × List (String × ℚ)) :=
  [ ("retoure", [("compliance", 0.25)])
  , ("beschwerde", [("tone", 0.30)]) ]

/-- Modelled from the spec: `get_dimensions_for_category(rubric, category)`,
absent from `src/judge/rubrics/rubric_loader.py`, returns the rubric's
dimension list (key and effective weight, in rubric order) with the
category-specific weight overrides layered on top of the base weights. -/
def get_dimensions_for_category (rubric : Rubric) (category : String) :
    List (String × ℚ) :=
  let overrides := (categoryWeightOverrides.lookup category).getD []
  rubric.dimensions.map (fun p => (p.1, (overrides.lookup p.1).getD p.2.weight))

end RubricLoader

/-! ## Grammar enhancement (`src/judge/languagetool.py`) -/

/-- Substring containment, Python's `pat in s` for strings. -/
def hasSubstr (s pat : String) : Bool := listHasSublist pat.data s.data

/-- Python `s.split()` with no separator: split on whitespace runs,
discarding empty pieces. -/
def pySplitWhitespace (s : String) : List String :=
  ((splitPredAux (fun c => c.isWhitespace) s.data).map
    (fun l => String.mk l)).filter (fun piece => piece ≠ "")

/-- Python `str()` / f-string rendering of a JSON value.  Only the string
case is exercised by the repository's data flow (the parser defaults
`reasoning` to a string and models emit strings); the renderings of the
remaining constructors stand in for Python's `repr`-style output and no
theorem depends on them. -/
def pyStr : JVal → String
  | .null => "None"
  | .bool true => "True"
  | .bool false => "False"
  | .num q => toString q
  | .str s => s
  | .arr _ => "[...]"
  | .obj _ => "\x7b...\x7d"

/-- Rendering of Python `f"\x7bx:.2f\x7d"`: the value to two decimal places.
(Python formats the nearest binary float with round-half-even; for the exact
rationals appearing here the difference is immaterial and no theorem depends
on the rendered digits.) -/
def fmtFixed2 (q : ℚ) : String :=
  let n : ℤ := round (q * 100)
  let sign := if n < 0 then "-" else ""
  let a := n.natAbs
  let frac := a % 100
  sign ++ toString (a / 100) ++ "." ++ (if frac < 10 then "0" else "") ++ toString frac

/-- Rendering of Python `f"\x7bx:.2%\x7d"`. -/
def fmtPercent2 (q : ℚ) : String := fmtFixed2 (q * 100) ++ "%"

/-- One LanguageTool match, reduced to the two fields `enhance_evaluation`
reads from it: `match["rule"]["category"]["id"]` (with the code's
empty-string defaults) and `match["message"]`. -/
structure LTMatch where
  rule_category_id : String
  message : String

/-- Model of `check_text`: posts the text to the external LanguageTool service and
returns its `matches`; every exception from the call is caught and an empty
match list returned (with an error note the caller never reads).  The
network outcome is the explicit oracle argument: `.ok` with the match list
of a 2xx JSON response, `.error` with the exception text otherwise. -/
def check_text (outcome : Except String (List LTMatch)) : List LTMatch :=
  match outcome with
  | .ok ms => ms
  | .error _ => []

/-- Model of `enhance_evaluation`: no-op on empty/whitespace text; otherwise checks
the text (via `check_text`, which swallows checker failure into zero
matches), and when a `language_quality` dimension is present replaces it
with an adjusted score, annotated reasoning and evidence, and recomputes the
overall score (keeping the old overall when the total weight is not
positive).  The `Except` layer records the `TypeError` Python would raise
when concatenating a non-list `evidence` value. -/
def enhance_evaluation (outcome : Except String (List LTMatch))
    (result : EvaluationResult) (chatbot_text : String) :
    Except PyError EvaluationResult :=
  if pyStrip chatbot_text = "" then pure result
  else
    let matchList := check_text outcome
    let word_count := (pySplitWhitespace chatbot_text).length
    let error_count := matchList.length
    let error_rate : ℚ := error_count / max word_count 1
    let spelling_errors := matchList.filter (fun m =>
      hasSubstr m.rule_category_id "SPELLER" || hasSubstr m.rule_category_id "SPELLING")
    let grammar_errors := matchList.filter (fun m =>
      !(hasSubstr m.rule_category_id "SPELLER" || hasSubstr m.rule_category_id "SPELLING")
        && hasSubstr m.rule_category_id "GRAMMAR")
    let style_errors := matchList.filter (fun m =>
      !(hasSubstr m.rule_category_id "SPELLER" || hasSubstr m.rule_category_id "SPELLING")
        && !(hasSubstr m.rule_category_id "GRAMMAR"))
    match result.dimension_scores.lookup "language_quality" with
    | none => pure result
    | some original_dim => do
      let adjustment : ℚ :=
        if 0.1 < error_rate then -2
        else if 0.05 < error_rate then -1
        else if 0.02 < error_rate then -0.5
        else 0
      let new_score := max 1 (min 5 (original_dim.score + adjustment))
      let new_reasoning := JVal.str (pyStr original_dim.reasoning
        ++ " [LanguageTool: " ++ toString error_count ++ " issues found - "
        ++ toString grammar_errors.length ++ " grammar, "
        ++ toString spelling_errors.length ++ " spelling, "
        ++ toString style_errors.length ++ " style]")
      let new_evidence ←
        match original_dim.evidence with
        | .arr xs => pure (JVal.arr (xs
            ++ [.str ("LanguageTool error rate: " ++ fmtPercent2 error_rate)]))
        | _ => Except.error .typeError
      let new_dim : DimensionScore :=
        { score := new_score, weight := original_dim.weight
          reasoning := new_reasoning, evidence := new_evidence }
      let dims := result.dimension_scores.map
        (fun p => if p.1 = "language_quality" then (p.1, new_dim) else p)
      let total_weight := (dims.map (fun d => d.2.weight)).sum
      let overall :=
        if 0 < total_weight then
          ((dims.map (fun d => d.2.score / 5 * d.2.weight)).sum) / total_weight
        else result.overall_score
      pure { result with dimension_scores := dims, overall_score := overall }

/-! ## Meta-evaluation service
(`src/backend/app/services/meta_evaluation_service.py`) -/

/-- Model of `CorrelationMetrics`: the correlation/error statistics schema. -/
structure CorrelationMetrics where
  pearson_r : ℚ
  spearman_rho : ℚ
  kendall_tau : ℚ
  mean_absolute_error : ℚ
  root_mean_squared_error : ℚ
  cohen_kappa : ℚ
  sample_size : ℕ

/-- The all-zero metrics the service returns without computing anything. -/
def zeroCorrelationMetrics (n : ℕ) : CorrelationMetrics :=
  { pearson_r := 0.0, spearman_rho := 0.0, kendall_tau := 0.0
    mean_absolute_error := 0.0, root_mean_squared_error := 0.0
    cohen_kappa := 0.0, sample_size := n }

/-- The six statistics scipy/sklearn compute inside
`_calculate_correlation_metrics` (after the code's 4-decimal rounding). -/
structure RawStats where
  pearson_r : ℚ
  spearman_rho : ℚ
  kendall_tau : ℚ
  mean_absolute_error : ℚ
  root_mean_squared_error : ℚ
  cohen_kappa : ℚ

/-- The external statistics stack (`scipy.stats`, `sklearn.metrics`) as an
oracle from the two score arrays to the six statistics. -/
abbrev StatsOracle := List ℚ → List ℚ → RawStats

/-- Model of `_calculate_correlation_metrics`: all-zero metrics for fewer than two
points, otherwise the library statistics with the sample size attached. -/
def calculate_correlation_metrics (oracle : StatsOracle)
    (judge_scores human_scores : List ℚ) : CorrelationMetrics :=
  if judge_scores.length < 2 then zeroCorrelationMetrics judge_scores.length
  else
    let s := oracle judge_scores human_scores
    { pearson_r := s.pearson_r, spearman_rho := s.spearman_rho
      kendall_tau := s.kendall_tau, mean_absolute_error := s.mean_absolute_error
      root_mean_squared_error := s.root_mean_squared_error
      cohen_kappa := s.cohen_kappa, sample_size := judge_scores.length }

/-- One `(judge, human)` score pair as `_get_score_pairs` assembles it from
the storage join.  A `judge_dimensions` entry carries
`judge_dims[key].get("score")` (so `none` when the score field is missing);
`human_dimensions` lookup models `human_dims.get(key)`. -/
structure ScorePair where
  judge_overall : ℚ
  human_overall : ℚ
  judge_dimensions : List (String × Option ℚ)
  human_dimensions : List (String × ℚ)

/-- One step of the collection loop in `_calculate_dimension_correlations`:
register the dimension key on first sight (dict insertion order), then
append the score pair when both the judge and the human supplied a value. -/
def addDimScore (acc : List (String × (List ℚ × List ℚ))) (key : String)
    (judge_score : Option ℚ) (human_score : Option ℚ) :
    List (String × (List ℚ × List ℚ)) :=
  let acc := if (acc.lookup key).isSome then acc else acc ++ [(key, ([], []))]
  match judge_score, human_score with
  | some js, some hs =>
    acc.map (fun p => if p.1 = key then (p.1, (p.2.1 ++ [js], p.2.2 ++ [hs])) else p)
  | _, _ => acc

/-- The per-dimension score collection of
`_calculate_dimension_correlations`: for every pair and every key of its
judge dimensions, collect the pairs where both sides supplied a value. -/
def collectDimensionScores (pairs : List ScorePair) :
    List (String × (List ℚ × List ℚ)) :=
  pairs.foldl
    (fun acc pair =>
      pair.judge_dimensions.foldl
        (fun acc entry =>
          addDimScore acc entry.1 entry.2 (pair.human_dimensions.lookup entry.1))
        acc)
    []

/-- Model of `_calculate_dimension_correlations`: the six statistics per dimension,
for every dimension with at least 5 collected pairs. -/
def calculate_dimension_correlations (oracle : StatsOracle)
    (pairs : List ScorePair) : List (String × CorrelationMetrics) :=
  (collectDimensionScores pairs).filterMap (fun p =>
    if 5 ≤ p.2.1.length then
      some (p.1, calculate_correlation_metrics oracle p.2.1 p.2.2)
    else none)

/-- Model of `_check_calibration_needed`: true when the overall Pearson r is below
0.80, or the overall MAE exceeds 1.0, or some dimension's Pearson r is below
0.70. -/
def check_calibration_needed (overall : CorrelationMetrics)
    (dimensions : List (String × CorrelationMetrics)) : Bool :=
  if overall.pearson_r < 0.80 then true
  else if 1.0 < overall.mean_absolute_error then true
  else if dimensions.any (fun d => decide (d.2.pearson_r < 0.70)) then true
  else false

/-- The single recommendation of the insufficient-data report. -/
def insufficientDataMsg : String :=
  "Insufficient data for meta-evaluation. Need at least 10 human annotations."

/-- The sample-size recommendation (`n < 50`). -/
def sampleSizeMsg (n : ℕ) : String :=
  "Current sample size (" ++ (toString n
    ++ ") is small. Aim for at least 50 human annotations for reliable metrics.")

/-- The weak-correlation recommendation (`r < 0.70`). -/
def weakCorrMsg (r : ℚ) : String :=
  "Overall correlation (" ++ (fmtFixed2 r
    ++ ") is below acceptable threshold (0.70). Consider reviewing prompt engineering and few-shot examples.")

/-- The moderate-correlation recommendation (`0.70 ≤ r < 0.80`). -/
def modCorrMsg (r : ℚ) : String :=
  "Overall correlation (" ++ (fmtFixed2 r
    ++ ") is moderate. Minor calibration adjustments recommended.")

/-- The excellent-correlation recommendation (`r ≥ 0.87`). -/
def excCorrMsg (r : ℚ) : String :=
  "Excellent correlation (" ++ (fmtFixed2 r
    ++ ") achieved. Judge is well-calibrated with human assessments.")

/-- The high-MAE recommendation (`MAE > 1.5`). -/
def highMaeMsg (m : ℚ) : String :=
  "High mean absolute error (" ++ (fmtFixed2 m
    ++ "). Judge scores deviate significantly from human scores on average.")

/-- The weak-dimensions recommendation. -/
def weakDimsMsg (dims : List String) : String :=
  "Weak correlation in dimensions: " ++ (String.intercalate ", " dims
    ++ ". Review rubric criteria and scoring anchors for these dimensions.")

/-- The explicit calibration recommendation. -/
def calibrationMsg : String :=
  "CALIBRATION RECOMMENDED: Run recalibration process with additional human annotations to improve judge accuracy."

/-- The fallback recommendation when nothing else applies. -/
def acceptableMsg : String :=
  "Judge performance is within acceptable parameters."

/-- Model of `_generate_recommendations`: the applicable recommendations in source
order, falling back to the acceptable-parameters message when the list would
otherwise be empty. -/
def generate_recommendations (overall : CorrelationMetrics)
    (dimensions : List (String × CorrelationMetrics))
    (calibration_needed : Bool) : List String :=
  let l1 := if overall.sample_size < 50 then [sampleSizeMsg overall.sample_size] else []
  let l2 :=
    if overall.pearson_r < 0.70 then [weakCorrMsg overall.pearson_r]
    else if overall.pearson_r < 0.80 then [modCorrMsg overall.pearson_r]
    else if 0.87 ≤ overall.pearson_r then [excCorrMsg overall.pearson_r]
    else []
  let l3 :=
    if 1.5 < overall.mean_absolute_error then [highMaeMsg overall.mean_absolute_error]
    else []
  let weak_dimensions := dimensions.filterMap (fun d =>
    if d.2.pearson_r < 0.70 then
      some (d.1 ++ (" (" ++ (fmtFixed2 d.2.pearson_r ++ ")")))
    else none)
  let l4 := if weak_dimensions.isEmpty then [] else [weakDimsMsg weak_dimensions]
  let l5 := if calibration_needed then [calibrationMsg] else []
  let recommendations := l1 ++ l2 ++ l3 ++ l4 ++ l5
  if recommendations.isEmpty then [acceptableMsg] else recommendations

/-- Model of `MetaEvaluationResponse`: the emitted report.  (The source also stamps
a `last_calculated` wall-clock time, outside a shallow embedding.) -/
structure MetaEvaluationResponse where
  overall_correlation : CorrelationMetrics
  dimension_correlations : List (String × CorrelationMetrics)
  calibration_needed : Bool
  recommendations : List String

/-- Model of `calculate_metrics`: the insufficient-data report for fewer than 10
pairs (no statistic is consulted), otherwise the full report over the
overall-score arrays and the per-dimension subsets. -/
def calculate_metrics (oracle : StatsOracle) (pairs : List ScorePair) :
    MetaEvaluationResponse :=
  if pairs.length < 10 then
    { overall_correlation := zeroCorrelationMetrics pairs.length
      dimension_correlations := []
      calibration_needed := true
      recommendations := [insufficientDataMsg] }
  else
    let judge_scores := pairs.map (fun p => p.judge_overall)
    let human_scores := pairs.map (fun p => p.human_overall)
    let overall_correlation :=
      calculate_correlation_metrics oracle judge_scores human_scores
    let dimension_correlations := calculate_dimension_correlations oracle pairs
    let calibration_needed :=
      check_calibration_needed overall_correlation dimension_correlations
    { overall_correlation := overall_correlation
      dimension_correlations := dimension_correlations
      calibration_needed := calibration_needed
      recommendations :=
        generate_recommendations overall_correlation dimension_correlations
          calibration_needed }

/-! ## Statement abbreviations and concrete sample data for the claims -/

/-- The C1 property: on any parsed result, the flag pass forces
`critical_error` on a low accuracy score and `compliance_issue` on a
sub-perfect compliance score, each ORed with (never replacing) the flag
reported by the model, both rules applying independently. -/
def C1Prop (r : EvaluationResult) : Prop :=
  (∀ ds, r.dimension_scores.lookup "accuracy" = some ds → ds.score < 3 →
      (apply_flags r).flags.critical_error = .bool true)
  ∧ (∀ ds, r.dimension_scores.lookup "compliance" = some ds → ds.score < 5 →
      (apply_flags r).flags.compliance_issue = .bool true)
  ∧ (r.flags.critical_error = .bool true →
      (apply_flags r).flags.critical_error = .bool true)
  ∧ (r.flags.compliance_issue = .bool true →
      (apply_flags r).flags.compliance_issue = .bool true)
  ∧ (apply_flags r).flags.escalation_needed = r.flags.escalation_needed

/-- The C3 property: the overall score is the weighted average
`Σ(score/5 · weight) / Σ weight` whenever a dimension was parsed (and the
total weight is positive, without which the formula is undefined), `0.5`
when none was; in particular all-5 scores give `1.0` and all-1 scores give
`0.2`. -/
def C3Prop (r : EvaluationResult) : Prop :=
  (r.dimension_scores ≠ [] →
    0 < ((r.dimension_scores.map (fun d => d.2.weight)).sum) →
    r.overall_score =
      ((r.dimension_scores.map (fun d => d.2.score / 5 * d.2.weight)).sum)
        / ((r.dimension_scores.map (fun d => d.2.weight)).sum))
  ∧ (r.dimension_scores = [] → r.overall_score = 0.5)
  ∧ ((∀ p ∈ r.dimension_scores, p.2.score = 5) → r.dimension_scores ≠ [] →
      0 < ((r.dimension_scores.map (fun d => d.2.weight)).sum) →
      r.overall_score = 1)
  ∧ ((∀ p ∈ r.dimension_scores, p.2.score = 1) → r.dimension_scores ≠ [] →
      0 < ((r.dimension_scores.map (fun d => d.2.weight)).sum) →
      r.overall_score = 0.2)

/-- The C4 per-entry property, relating each raw `dimension_scores` entry to
the `DimensionScore` parsed from it: key preserved, weight resolved from the
rubric alone (0.1 fallback; the model's own stated weight never read), and
the missing-field defaults score=3, reasoning="", evidence=[]. -/
def C4Rel (rubric : Rubric) (e : String × JVal) (d : String × DimensionScore) : Prop :=
  d.1 = e.1
  ∧ d.2.weight =
      (match rubric.dimensions.lookup e.1 with
       | some dim => dim.weight
       | none => 0.1)
  ∧ ∀ fields, e.2 = .obj fields →
      ((fields.lookup "score" = none → d.2.score = 3)
       ∧ (fields.lookup "reasoning" = none → d.2.reasoning = .str "")
       ∧ (fields.lookup "evidence" = none → d.2.evidence = .arr []))

/-- The C7 property of an emitted meta-evaluation report: the calibration
flag is the documented threshold disjunction over the report's own metrics,
the recommendation list is never empty, it contains the explicit
"CALIBRATION RECOMMENDED" line exactly when the flag is set, and it
collapses to the acceptable-parameters fallback when nothing else applies. -/
def C7Prop (rsp : MetaEvaluationResponse) : Prop :=
  (rsp.calibration_needed = true ↔
     (rsp.overall_correlation.pearson_r < 0.80
       ∨ 1.0 < rsp.overall_correlation.mean_absolute_error
       ∨ ∃ d ∈ rsp.dimension_correlations, d.2.pearson_r < 0.70))
  ∧ rsp.recommendations ≠ []
  ∧ (calibrationMsg ∈ rsp.recommendations ↔ rsp.calibration_needed = true)
  ∧ ((50 ≤ rsp.overall_correlation.sample_size
       ∧ 0.80 ≤ rsp.overall_correlation.pearson_r
       ∧ rsp.overall_correlation.pearson_r < 0.87
       ∧ rsp.overall_correlation.mean_absolute_error ≤ 1.5
       ∧ (∀ d ∈ rsp.dimension_correlations, 0.70 ≤ d.2.pearson_r)
       ∧ rsp.calibration_needed = false) →
      rsp.recommendations = [acceptableMsg])

/-- Stand-in for the two `json.loads` outcomes the C2 analysis uses: the
text `[1,2,3]` decodes to a JSON list (as the stdlib decoder does), anything
else fails with the stdlib's "Expecting value" message. -/
def c2Loads : String → Except String JVal := fun s =>
  if s = "[1,2,3]" then .ok (.arr [.num 1, .num 2, .num 3])
  else .error "Expecting value: line 1 column 1 (char 0)"

/-- A model response for C1: accuracy scored 2, compliance scored 4, all
flags self-reported false. -/
def c1Data : JVal :=
  .obj
    [ ("dimension_scores", .obj
        [ ("accuracy", .obj [("score", .num 2)])
        , ("compliance", .obj [("score", .num 4)]) ])
    , ("flags", .obj
        [ ("critical_error", .bool false)
        , ("compliance_issue", .bool false)
        , ("escalation_needed", .bool false) ]) ]

/-- The result `_parse_response` produces from `c1Data`. -/
def c1Result : EvaluationResult where
  conversation_id := "C1"
  overall_score := 26/45
  dimension_scores :=
    [ ("accuracy", { score := 2, weight := 0.25, reasoning := .str "", evidence := .arr [] })
    , ("compliance", { score := 4, weight := 0.20, reasoning := .str "", evidence := .arr [] }) ]
  chain_of_thought :=
    { context_analysis := .str "", response_analysis := .str ""
      legal_check := .str "", language_assessment := .str "" }
  summary := .str ""
  improvement_suggestions := .arr []
  flags :=
    { critical_error := .bool false, compliance_issue := .bool false
      escalation_needed := .bool false }
  model_name := ""
  rubric_version := ""
  processing_time_ms := 0
  raw_response := some ""

/-- A model response for C3: every dimension scored 5. -/
def c3Data : JVal :=
  .obj
    [ ("dimension_scores", .obj
        [ ("accuracy", .obj [("score", .num 5)])
        , ("tone", .obj [("score", .num 5)]) ]) ]

/-- The result `_parse_response` produces from `c3Data`. -/
def c3Result : EvaluationResult where
  conversation_id := "W3"
  overall_score := 1
  dimension_scores :=
    [ ("accuracy", { score := 5, weight := 0.25, reasoning := .str "", evidence := .arr [] })
    , ("tone", { score := 5, weight := 0.20, reasoning := .str "", evidence := .arr [] }) ]
  chain_of_thought :=
    { context_analysis := .str "", response_analysis := .str ""
      legal_check := .str "", language_assessment := .str "" }
  summary := .str ""
  improvement_suggestions := .arr []
  flags :=
    { critical_error := .bool false, compliance_issue := .bool false
      escalation_needed := .bool false }
  model_name := ""
  rubric_version := ""
  processing_time_ms := 0
  raw_response := some ""

/-- Raw dimension-score entries for the C4 witness: a rubric dimension with
every field missing, and an unknown dimension whose model-stated weight must
be ignored in favour of the 0.1 fallback. -/
def c4Items : List (String × JVal) :=
  [ ("accuracy", .obj [])
  , ("extra_dim", .obj [("weight", .num 9), ("score", .num 4)]) ]

/-- The dimension scores parsed from `c4Items` against the default rubric. -/
def c4Out : List (String × DimensionScore) :=
  [ ("accuracy", { score := 3, weight := 0.25, reasoning := .str "", evidence := .arr [] })
  , ("extra_dim", { score := 4, weight := 0.1, reasoning := .str "", evidence := .arr [] }) ]

/-- A stub per-item evaluation for the batch witness, recording in the
result which few-shot flag it was called with. -/
def batchEvalStub (conv : Conversation) (include_few_shot : Bool) : EvaluationResult :=
  create_error_result conv.id (if include_few_shot then "few-shot" else "no-few-shot")

/-- Two conversations for the batch witness. -/
def convA : Conversation where
  id := "A"
  category := "retoure"
  timestamp := 0
  messages := []

/-- Second conversation for the batch witness. -/
def convB : Conversation where
  id := "B"
  category := "beschwerde"
  timestamp := 0
  messages := []

/-- A statistics oracle for the C7 witness: excellent agreement. -/
def c7Oracle : StatsOracle := fun _ _ =>
  { pearson_r := 0.9, spearman_rho := 0.9, kendall_tau := 0.9
    mean_absolute_error := 0.5, root_mean_squared_error := 0.5, cohen_kappa := 0.8 }

/-- Ten identical score pairs (no per-dimension data) for the C7 witness. -/
def c7Pairs : List ScorePair :=
  List.replicate 10
    { judge_overall := 8, human_overall := 8
      judge_dimensions := [], human_dimensions := [] }

/-- An evaluation result with a `language_quality` dimension, for the C8
analysis. -/
def c8Result : EvaluationResult where
  conversation_id := "C8"
  overall_score := 0.8
  dimension_scores :=
    [ ("language_quality", { score := 4, weight := 0.10, reasoning := .str "ok", evidence := .arr [] }) ]
  chain_of_thought :=
    { context_analysis := .str "", response_analysis := .str ""
      legal_check := .str "", language_assessment := .str "" }
  summary := .str ""
  improvement_suggestions := .arr []
  flags := {}
  model_name := ""
  rubric_version := ""
  processing_time_ms := 0
  raw_response := none

/-! ## Helper lemmas -/

/-- Destructuring a successful `Except` bind. -/
theorem except_bind_ok {ε α β : Type _} {e : Except ε α} {k : α → Except ε β} {b : β}
    (h : e >>= k = Except.ok b) : ∃ a, e = Except.ok a ∧ k a = Except.ok b := by
  cases e with
  | error er => simp [Bind.bind, Except.bind] at h
  | ok a => exact ⟨a, rfl, by simpa [Bind.bind, Except.bind] using h⟩

/-- Structural facts about every successfully parsed result: the overall
score is the weighted average of its own dimension scores, the raw response
text is preserved, and the conversation id is the one passed in. -/
theorem parseResponseDecoded_ok {rubric : Rubric} {data : JVal}
    {response conversation_id : String} {r : EvaluationResult}
    (h : parseResponseDecoded rubric data response conversation_id = Except.ok r) :
    r.overall_score = computeOverallScore r.dimension_scores
    ∧ r.raw_response = some response
    ∧ r.conversation_id = conversation_id := by
  unfold parseResponseDecoded at h
  obtain ⟨dimsJson, -, h⟩ := except_bind_ok h
  obtain ⟨dimItems, -, h⟩ := except_bind_ok h
  obtain ⟨dims, -, h⟩ := except_bind_ok h
  obtain ⟨cotJ, -, h⟩ := except_bind_ok h
  obtain ⟨ca, -, h⟩ := except_bind_ok h
  obtain ⟨ra, -, h⟩ := except_bind_ok h
  obtain ⟨lc, -, h⟩ := except_bind_ok h
  obtain ⟨la, -, h⟩ := except_bind_ok h
  obtain ⟨flagsJ, -, h⟩ := except_bind_ok h
  obtain ⟨ce, -, h⟩ := except_bind_ok h
  obtain ⟨ci, -, h⟩ := except_bind_ok h
  obtain ⟨en, -, h⟩ := except_bind_ok h
  obtain ⟨su, -, h⟩ := except_bind_ok h
  obtain ⟨im, -, h⟩ := except_bind_ok h
  simp only [pure, Except.pure, Except.ok.injEq] at h
  subst h
  exact ⟨rfl, rfl, rfl⟩

/-- The empty-dimension branch of the weighted average. -/
theorem computeOverallScore_nil : computeOverallScore [] = 0.5 := by
  norm_num [computeOverallScore]

/-- The generic branch of the weighted average. -/
theorem computeOverallScore_pos (dims : List (String × DimensionScore))
    (hne : dims ≠ []) (hw : 0 < (dims.map (fun d => d.2.weight)).sum) :
    computeOverallScore dims =
      ((dims.map (fun d => d.2.score / 5 * d.2.weight)).sum)
        / ((dims.map (fun d => d.2.weight)).sum) := by
  unfold computeOverallScore
  rw [if_neg, if_pos hw]
  simp [List.isEmpty_iff, hne]

/-- All scores 5 give the full overall score. -/
theorem computeOverallScore_all5 (dims : List (String × DimensionScore))
    (h5 : ∀ p ∈ dims, p.2.score = 5) (hne : dims ≠ [])
    (hw : 0 < (dims.map (fun d => d.2.weight)).sum) :
    computeOverallScore dims = 1 := by
  rw [computeOverallScore_pos dims hne hw]
  have heq : dims.map (fun d => d.2.score / 5 * d.2.weight)
      = dims.map (fun d => d.2.weight) :=
    List.map_congr_left (fun p hp => by rw [h5 p hp]; norm_num)
  rw [heq]
  exact div_self (ne_of_gt hw)

/-- All scores 1 give an overall score of one fifth. -/
theorem computeOverallScore_all1 (dims : List (String × DimensionScore))
    (h1 : ∀ p ∈ dims, p.2.score = 1) (hne : dims ≠ [])
    (hw : 0 < (dims.map (fun d => d.2.weight)).sum) :
    computeOverallScore dims = 0.2 := by
  rw [computeOverallScore_pos dims hne hw]
  have heq : dims.map (fun d => d.2.score / 5 * d.2.weight)
      = dims.map (fun d => (1 : ℚ)/5 * d.2.weight) :=
    List.map_congr_left (fun p hp => by rw [h1 p hp])
  rw [heq, List.sum_map_mul_left, mul_div_assoc, div_self (ne_of_gt hw)]
  norm_num

/-- A successful dimension-score loop constrains each parsed entry by the
loop body. -/
theorem parseDimensions_forall₂ (rubric : Rubric) :
    ∀ (items : List (String × JVal)) (out : List (String × DimensionScore)),
      parseDimensions rubric items = Except.ok out →
      List.Forall₂ (fun e d => parseDimEntry rubric e.1 e.2 = Except.ok d) items out := by
  intro items
  induction items with
  | nil =>
    intro out h
    simp only [parseDimensions, pure, Except.pure, Except.ok.injEq] at h
    subst h
    exact List.Forall₂.nil
  | cons hd tl ih =>
    intro out h
    simp only [parseDimensions] at h
    obtain ⟨d, hd', h⟩ := except_bind_ok h
    obtain ⟨ds, hds, h⟩ := except_bind_ok h
    simp only [pure, Except.pure, Except.ok.injEq] at h
    subst h
    exact List.Forall₂.cons hd' (ih ds hds)

/-- The loop body resolves the weight from the rubric alone and applies the
missing-field defaults. -/
theorem parseDimEntry_spec (rubric : Rubric) (dim_name : String) (dim_data : JVal)
    (d : String × DimensionScore)
    (h : parseDimEntry rubric dim_name dim_data = Except.ok d) :
    C4Rel rubric (dim_name, dim_data) d := by
  unfold parseDimEntry at h
  obtain ⟨scoreJ, hscoreJ, h⟩ := except_bind_ok h
  obtain ⟨score, hscore, h⟩ := except_bind_ok h
  obtain ⟨reasoning, hreason, h⟩ := except_bind_ok h
  obtain ⟨evidence, hevid, h⟩ := except_bind_ok h
  simp only [pure, Except.pure, Except.ok.injEq] at h
  subst h
  refine ⟨rfl, rfl, ?_⟩
  intro fields hf
  subst hf
  simp only [pyDictGet, pure, Except.pure, Except.ok.injEq] at hscoreJ hreason hevid
  refine ⟨?_, ?_, ?_⟩
  · intro hnone
    rw [hnone] at hscoreJ
    simp only [Option.getD_none] at hscoreJ
    subst hscoreJ
    simp only [asScore, pure, Except.pure, Except.ok.injEq] at hscore
    subst hscore
    rfl
  · intro hnone
    rw [hnone] at hreason
    simp only [Option.getD_none] at hreason
    subst hreason
    rfl
  · intro hnone
    rw [hnone] at hevid
    simp only [Option.getD_none] at hevid
    subst hevid
    rfl

/-! ## Claim theorems -/

/-- C1: for every parsed model response, the flag pass (`_apply_flags`,
modelled from the spec) forces `critical_error` when a dimension named
"accuracy" is present with score < 3 and `compliance_issue` when a
dimension named "compliance" is present with score < 5; the forced flags OR
with (do not replace) the model-reported flags, both rules apply
independently and simultaneously, and the escalation flag is untouched. -/
theorem c1_flag_rules (rubric : Rubric) (data : JVal)
    (response conversation_id : String) (r : EvaluationResult)
    (h : parseResponseDecoded rubric data response conversation_id = Except.ok r) :
    C1Prop r := by
  refine ⟨?_, ?_, ?_, ?_, ?_⟩
  · intro ds hlk hs
    simp [apply_flags, hlk, hs]
  · intro ds hlk hs
    simp [apply_flags, hlk, hs]
  · intro hrc
    simp only [apply_flags]
    split
    · rfl
    · exact hrc
  · intro hrc
    simp only [apply_flags]
    split
    · rfl
    · exact hrc
  · rfl

/-- C2 (amended): a `json.loads` failure degrades to a valid error
`EvaluationResult` with `critical_error = true`, `overall_score = 0.0`, an
"Error: JSON parse error: …" marker in `chain_of_thought.context_analysis`
and `conversation_id` preserved — but with `raw_response = None` (the raw
text is preserved, in `raw_response`, only on successfully parsed results);
schema mismatches in which the decoded value or its sub-values are not JSON
objects are not degraded (they escape `parse` as exceptions, shown by the
separate counterexample). -/
theorem c2_parse_error_handling (rubric : Rubric)
    (jsonLoads : String → Except String JVal) (response conversation_id : String) :
    (∀ e, jsonLoads (pyStrip (extractJson response)) = Except.error e →
       parse_response rubric jsonLoads response conversation_id =
         Except.ok (create_error_result conversation_id ("JSON parse error: " ++ e)))
    ∧ (∀ msg,
        (create_error_result conversation_id msg).flags.critical_error = .bool true
        ∧ (create_error_result conversation_id msg).overall_score = 0
        ∧ (create_error_result conversation_id msg).chain_of_thought.context_analysis
            = .str ("Error: " ++ msg)
        ∧ (create_error_result conversation_id msg).raw_response = none
        ∧ (create_error_result conversation_id msg).conversation_id = conversation_id)
    ∧ (∀ data r, jsonLoads (pyStrip (extractJson response)) = Except.ok data →
        parseResponseDecoded rubric data response conversation_id = Except.ok r →
        r.raw_response = some response ∧ r.conversation_id = conversation_id) := by
  refine ⟨?_, ?_, ?_⟩
  · intro e he
    simp [parse_response, he, pure, Except.pure]
  · intro msg
    refine ⟨rfl, by norm_num [create_error_result], rfl, rfl, rfl⟩
  · intro data r _ hok
    exact ⟨(parseResponseDecoded_ok hok).2.1, (parseResponseDecoded_ok hok).2.2⟩

/-- C3: for every parsed response the overall score is
`Σ(score/5 · weight) / Σ weight` over the parsed dimensions (whenever any
dimension was parsed and the total weight is positive, without which the
stated formula is undefined and the code yields 0.5), is 0.5 when no
dimension was parsed, equals 1.0 when every parsed score is 5, and equals
0.2 when every parsed score is 1. -/
theorem c3_weighted_overall (rubric : Rubric) (data : JVal)
    (response conversation_id : String) (r : EvaluationResult)
    (h : parseResponseDecoded rubric data response conversation_id = Except.ok r) :
    C3Prop r := by
  obtain ⟨hov, -, -⟩ := parseResponseDecoded_ok h
  refine ⟨?_, ?_, ?_, ?_⟩
  · intro hne hw
    rw [hov, computeOverallScore_pos _ hne hw]
  · intro hnil
    rw [hov, hnil, computeOverallScore_nil]
  · intro h5 hne hw
    rw [hov, computeOverallScore_all5 _ h5 hne hw]
  · intro h1 hne hw
    rw [hov, computeOverallScore_all1 _ h1 hne hw]

/-- C4: every entry of `dimension_scores` parses to a `DimensionScore`
whose weight comes from the rubric's matching dimension (fallback 0.1 for
keys absent from the rubric; the model's own stated weight is ignored) and
whose missing `score`/`reasoning`/`evidence` fields default to 3, the empty
string and the empty list. -/
theorem c4_dimension_defaults (rubric : Rubric) (items : List (String × JVal))
    (out : List (String × DimensionScore))
    (h : parseDimensions rubric items = Except.ok out) :
    List.Forall₂ (C4Rel rubric) items out :=
  (parseDimensions_forall₂ rubric items out h).imp
    (fun e d he => parseDimEntry_spec rubric e.1 e.2 d he)

/-- C5: `evaluate_batch` returns exactly one result per conversation,
positionally aligned with the input order (completion order is absorbed by
`asyncio.gather`'s in-order collection), and few-shot examples are enabled
only for index 0 — every other conversation is evaluated with
`include_few_shot = false` even when the caller passed `true`. -/
theorem c5_batch_order_few_shot (evaluate : Conversation → Bool → EvaluationResult)
    (conversations : List Conversation) (include_few_shot : Bool) :
    (evaluate_batch evaluate conversations include_few_shot).length
        = conversations.length
    ∧ (∀ i : ℕ, (evaluate_batch evaluate conversations include_few_shot)[i]? =
        (conversations[i]?).map (fun conv => evaluate conv (include_few_shot && i == 0)))
    ∧ (∀ i : ℕ, 0 < i →
        (evaluate_batch evaluate conversations include_few_shot)[i]? =
        (conversations[i]?).map (fun conv => evaluate conv false)) := by
  refine ⟨?_, ?_, ?_⟩
  · simp [evaluate_batch]
  · intro i
    cases hq : conversations[i]? with
    | none =>
      simp [evaluate_batch, List.getElem?_map, List.getElem?_enum, hq]
    | some conv =>
      simp [evaluate_batch, List.getElem?_map, List.getElem?_enum, hq]
  · intro i hi
    have hne : (i == 0) = false := by
      simp [Nat.pos_iff_ne_zero.mp hi]
    cases hq : conversations[i]? with
    | none =>
      simp [evaluate_batch, List.getElem?_map, List.getElem?_enum, hq]
    | some conv =>
      simp [evaluate_batch, List.getElem?_map, List.getElem?_enum, hq, hne]

/-- C6: with fewer than 10 pairs, `calculate_metrics` returns the
insufficient-data report — all-zero overall metrics carrying the pair count
as sample size, no dimension correlations, `calibration_needed = true` and
exactly the one insufficient-data recommendation — for every statistics
oracle (no statistic is consulted) and every pair content. -/
theorem c6_insufficient_data (oracle : StatsOracle) (pairs : List ScorePair)
    (h : pairs.length < 10) :
    calculate_metrics oracle pairs =
      { overall_correlation := zeroCorrelationMetrics pairs.length
        dimension_correlations := []
        calibration_needed := true
        recommendations := [insufficientDataMsg] } := by
  simp [calculate_metrics, h]

/-- C9: `get_dimensions_for_category` (modelled from the spec; absent from
the loader source) layers the fixed category overrides over the default
rubric's base weights: "retoure" boosts compliance to 0.25, "beschwerde"
boosts tone to 0.30, all other dimensions and any unlisted category keep
the rubric's base weights. -/
theorem c9_category_overrides :
    RubricLoader.get_dimensions_for_category DEFAULT_RUBRIC "retoure" =
      [("accuracy", 0.25), ("tone", 0.20), ("compliance", 0.25),
       ("completeness", 0.15), ("language_quality", 0.10), ("efficiency", 0.10)]
    ∧ RubricLoader.get_dimensions_for_category DEFAULT_RUBRIC "beschwerde" =
      [("accuracy", 0.25), ("tone", 0.30), ("compliance", 0.20),
       ("completeness", 0.15), ("language_quality", 0.10), ("efficiency", 0.10)]
    ∧ RubricLoader.get_dimensions_for_category DEFAULT_RUBRIC "produktanfrage" =
      DEFAULT_RUBRIC.dimensions.map (fun p => (p.1, p.2.weight)) := by
  refine ⟨?_, ?_, ?_⟩ <;>
    simp [RubricLoader.get_dimensions_for_category,
      RubricLoader.categoryWeightOverrides, DEFAULT_RUBRIC, List.lookup]

/-- C10: `load` never fails outward — loading "default_rubric" twice
returns the cached identical rubric; loading a name whose file is absent or
unparseable returns the default rubric without inserting a cache entry for
that name, so a later load of the same name re-probes the modelled
filesystem and picks up a newly created rubric file. -/
theorem c10_loader_cache_fallback (fs : List (String × Option Rubric))
    (cache : List (String × Rubric)) (rubric_name : String) :
    ((RubricLoader.load fs [] "default_rubric").1 = DEFAULT_RUBRIC
      ∧ RubricLoader.load fs (RubricLoader.load fs [] "default_rubric").2 "default_rubric"
          = (DEFAULT_RUBRIC, (RubricLoader.load fs [] "default_rubric").2))
    ∧ (cache.lookup rubric_name = none → rubric_name ≠ "default_rubric" →
        fs.lookup rubric_name = none →
        RubricLoader.load fs cache rubric_name = (DEFAULT_RUBRIC, cache))
    ∧ (cache.lookup rubric_name = none → rubric_name ≠ "default_rubric" →
        fs.lookup rubric_name = some none →
        RubricLoader.load fs cache rubric_name = (DEFAULT_RUBRIC, cache))
    ∧ (∀ fs2 rubric, cache.lookup rubric_name = none →
        rubric_name ≠ "default_rubric" →
        fs2.lookup rubric_name = some (some rubric) →
        RubricLoader.load fs2 cache rubric_name
          = (rubric, (rubric_name, rubric) :: cache)) := by
  refine ⟨⟨rfl, rfl⟩, ?_, ?_, ?_⟩
  · intro hc hn hf
    simp [RubricLoader.load, hc, hn, hf]
  · intro hc hn hf
    simp [RubricLoader.load, hc, hn, hf]
  · intro fs2 rubric hc hn hf
    simp [RubricLoader.load, hc, hn, hf]

/-- C1 witness: the accuracy-2 / compliance-4 response parses and the flag
pass forces both flags at once. -/
theorem c1_witness :
    (apply_flags c1Result).flags.critical_error = JVal.bool true
    ∧ (apply_flags c1Result).flags.compliance_issue = JVal.bool true := by
  have H := c1_flag_rules DEFAULT_RUBRIC c1Data "" "C1" c1Result (by
    simp [parseResponseDecoded, c1Data, DEFAULT_RUBRIC, pyDictGet, pyItems,
      parseDimensions, parseDimEntry, asScore, computeOverallScore,
      List.lookup, Bind.bind, Except.bind, pure, Except.pure, c1Result]
    norm_num)
  exact ⟨H.1 _ (by rfl) (by norm_num), H.2.1 _ (by rfl) (by norm_num)⟩

/-- C2 counterexample: the claim "parse never raises for any input string"
is false — on the decoded JSON list `[1,2,3]` the parser raises
(`AttributeError` from `.get` on a list) instead of degrading; and the
degraded malformed-JSON result does not preserve the raw model text
(`raw_response` is `None`). -/
theorem c2_counterexample :
    (parse_response DEFAULT_RUBRIC c2Loads "[1,2,3]" "X").isOk = false
    ∧ parse_response DEFAULT_RUBRIC c2Loads "not json" "X"
        = Except.ok (create_error_result "X"
            "JSON parse error: Expecting value: line 1 column 1 (char 0)")
    ∧ (create_error_result "X"
        "JSON parse error: Expecting value: line 1 column 1 (char 0)").raw_response
        = none := by
  refine ⟨by rfl, by rfl, rfl⟩

/-- C2 witness: a decode failure degrades to the structured error result. -/
theorem c2_witness :
    parse_response DEFAULT_RUBRIC c2Loads "oops" "W2"
      = Except.ok (create_error_result "W2"
          "JSON parse error: Expecting value: line 1 column 1 (char 0)") :=
  (c2_parse_error_handling DEFAULT_RUBRIC c2Loads "oops" "W2").1
    "Expecting value: line 1 column 1 (char 0)" (by rfl)

/-- C3 witness: the all-5 response parses to an overall score of exactly 1. -/
theorem c3_witness : c3Result.overall_score = 1 := by
  have H := c3_weighted_overall DEFAULT_RUBRIC c3Data "" "W3" c3Result (by
    simp [parseResponseDecoded, c3Data, DEFAULT_RUBRIC, pyDictGet, pyItems,
      parseDimensions, parseDimEntry, asScore, computeOverallScore,
      List.lookup, Bind.bind, Except.bind, pure, Except.pure, c3Result]
    norm_num)
  exact H.2.2.1 (by decide) (by simp [c3Result]) (by norm_num [c3Result])

/-- C4 witness: a rubric dimension with all fields missing gets the rubric
weight and the defaults, an unknown dimension with a model-stated weight
gets the 0.1 fallback instead. -/
theorem c4_witness : List.Forall₂ (C4Rel DEFAULT_RUBRIC) c4Items c4Out :=
  c4_dimension_defaults DEFAULT_RUBRIC c4Items c4Out (by rfl)

/-- C5 witness: in a two-conversation batch requested with few-shot
examples, the second conversation is evaluated with few-shot disabled. -/
theorem c5_witness :
    (evaluate_batch batchEvalStub [convA, convB] true)[1]? =
      some (batchEvalStub convB false) := by
  have H := (c5_batch_order_few_shot batchEvalStub [convA, convB] true).2.2 1 (by decide)
  simpa using H

/-- C6 witness: the empty pair list produces exactly the insufficient-data
report, with a non-degenerate oracle that is never consulted. -/
theorem c6_witness :
    calculate_metrics
      (fun _ _ =>
        { pearson_r := 1, spearman_rho := 1, kendall_tau := 1
          mean_absolute_error := 1, root_mean_squared_error := 1, cohen_kappa := 1 })
      [] =
      { overall_correlation := zeroCorrelationMetrics 0
        dimension_correlations := []
        calibration_needed := true
        recommendations := [insufficientDataMsg] } :=
  c6_insufficient_data _ [] (by decide)

/-- C10 witness: a name with an unparseable file falls back to the default
rubric and leaves the cache untouched. -/
theorem c10_witness :
    RubricLoader.load [("broken", (none : Option Rubric))] [] "missing"
      = (DEFAULT_RUBRIC, []) :=
  (c10_loader_cache_fallback [("broken", none)] [] "missing").2.1 rfl (by decide) rfl

/-- Two strings differing in their first character differ. -/
theorem string_ne_of_head (s t : String) (h : s.data.head? ≠ t.data.head?) :
    s ≠ t :=
  fun he => h (by rw [he])

/-- Two strings differing in their second character differ. -/
theorem string_ne_of_getElem1 (s t : String) (h : s.data[1]? ≠ t.data[1]?) :
    s ≠ t :=
  fun he => h (by rw [he])

/-- The first character of an appended string is that of its prefix. -/
theorem head?_append_some (p x : String) (c : Char) (h : p.data.head? = some c) :
    (p ++ x).data.head? = some c := by
  rw [String.data_append, List.head?_append, h]
  rfl

/-- The second character of an appended string is that of its prefix. -/
theorem getElem1_append_some (p x : String) (c : Char) (h : p.data[1]? = some c) :
    (p ++ x).data[1]? = some c := by
  have hlt : 1 < p.data.length := by
    rcases List.getElem?_eq_some.mp h with ⟨hl, -⟩
    exact hl
  rw [String.data_append, List.getElem?_append_left hlt, h]

/-- The sample-size recommendation is never the calibration line. -/
theorem sampleSizeMsg_ne_calibrationMsg (n : ℕ) :
    sampleSizeMsg n ≠ calibrationMsg := by
  have h1 : (sampleSizeMsg n).data[1]? = some 'u' := by
    unfold sampleSizeMsg
    exact getElem1_append_some _ _ 'u' (by rfl)
  exact string_ne_of_getElem1 _ _ (by rw [h1]; decide)

/-- The weak-correlation recommendation is never the calibration line. -/
theorem weakCorrMsg_ne_calibrationMsg (r : ℚ) : weakCorrMsg r ≠ calibrationMsg := by
  have h1 : (weakCorrMsg r).data.head? = some 'O' := by
    unfold weakCorrMsg
    exact head?_append_some _ _ 'O' (by rfl)
  exact string_ne_of_head _ _ (by rw [h1]; decide)

/-- The moderate-correlation recommendation is never the calibration line. -/
theorem modCorrMsg_ne_calibrationMsg (r : ℚ) : modCorrMsg r ≠ calibrationMsg := by
  have h1 : (modCorrMsg r).data.head? = some 'O' := by
    unfold modCorrMsg
    exact head?_append_some _ _ 'O' (by rfl)
  exact string_ne_of_head _ _ (by rw [h1]; decide)

/-- The excellent-correlation recommendation is never the calibration line. -/
theorem excCorrMsg_ne_calibrationMsg (r : ℚ) : excCorrMsg r ≠ calibrationMsg := by
  have h1 : (excCorrMsg r).data.head? = some 'E' := by
    unfold excCorrMsg
    exact head?_append_some _ _ 'E' (by rfl)
  exact string_ne_of_head _ _ (by rw [h1]; decide)

/-- The high-MAE recommendation is never the calibration line. -/
theorem highMaeMsg_ne_calibrationMsg (m : ℚ) : highMaeMsg m ≠ calibrationMsg := by
  have h1 : (highMaeMsg m).data.head? = some 'H' := by
    unfold highMaeMsg
    exact head?_append_some _ _ 'H' (by rfl)
  exact string_ne_of_head _ _ (by rw [h1]; decide)

/-- The weak-dimensions recommendation is never the calibration line. -/
theorem weakDimsMsg_ne_calibrationMsg (l : List String) :
    weakDimsMsg l ≠ calibrationMsg := by
  have h1 : (weakDimsMsg l).data.head? = some 'W' := by
    unfold weakDimsMsg
    exact head?_append_some _ _ 'W' (by rfl)
  exact string_ne_of_head _ _ (by rw [h1]; decide)

/-- The fallback recommendation is never the calibration line. -/
theorem acceptableMsg_ne_calibrationMsg : acceptableMsg ≠ calibrationMsg := by
  decide

/-- Membership in an `if isEmpty` fallback. -/
theorem mem_ite_isEmpty {α : Type _} (a : α) (l d : List α) (h : a ∈ l) :
    a ∈ (if l.isEmpty then d else l) := by
  split
  · next hE =>
    rw [List.isEmpty_iff.mp hE] at h
    simp at h
  · exact h

/-- An `if isEmpty` fallback with a nonempty default is nonempty. -/
theorem ite_isEmpty_ne_nil {α : Type _} {l d : List α} (hd : d ≠ []) :
    (if l.isEmpty then d else l) ≠ [] := by
  split
  · exact hd
  · next h => exact fun hnil => h (by rw [hnil]; rfl)

/-- Eliminating membership in an `if isEmpty` fallback. -/
theorem mem_ite_isEmpty_elim {α : Type _} {a : α} {l d : List α}
    (h : a ∈ (if l.isEmpty then d else l)) : a ∈ d ∨ a ∈ l := by
  split at h
  · exact Or.inl h
  · exact Or.inr h

/-- Every generated recommendation is one of the eight message shapes, the
calibration line appearing only when the flag is set. -/
theorem mem_generate_recommendations (o : CorrelationMetrics)
    (dims : List (String × CorrelationMetrics)) (flag : Bool)
    (m : String) (hm : m ∈ generate_recommendations o dims flag) :
    m = acceptableMsg ∨ m = sampleSizeMsg o.sample_size
    ∨ m = weakCorrMsg o.pearson_r ∨ m = modCorrMsg o.pearson_r
    ∨ m = excCorrMsg o.pearson_r ∨ m = highMaeMsg o.mean_absolute_error
    ∨ (∃ l, m = weakDimsMsg l) ∨ (flag = true ∧ m = calibrationMsg) := by
  simp only [generate_recommendations] at hm
  rcases mem_ite_isEmpty_elim hm with hm | hm
  · left
    simpa using hm
  · simp only [List.mem_append] at hm
    rcases hm with ((((h | h) | h) | h) | h)
    · split at h
      · right; left; simpa using h
      · simp at h
    · split at h
      · right; right; left; simpa using h
      · split at h
        · right; right; right; left; simpa using h
        · split at h
          · right; right; right; right; left; simpa using h
          · simp at h
    · split at h
      · right; right; right; right; right; left; simpa using h
      · simp at h
    · split at h
      · simp at h
      · right; right; right; right; right; right; left
        exact ⟨_, by simpa using h⟩
    · split at h
      · next hf =>
        right; right; right; right; right; right; right
        exact ⟨hf, by simpa using h⟩
      · simp at h

/-- The generated recommendation list is never empty. -/
theorem generate_recommendations_ne_nil (o : CorrelationMetrics)
    (dims : List (String × CorrelationMetrics)) (flag : Bool) :
    generate_recommendations o dims flag ≠ [] := by
  unfold generate_recommendations
  exact ite_isEmpty_ne_nil (by simp)

/-- The calibration line is generated exactly when the flag is set. -/
theorem calibrationMsg_mem_iff (o : CorrelationMetrics)
    (dims : List (String × CorrelationMetrics)) (flag : Bool) :
    calibrationMsg ∈ generate_recommendations o dims flag ↔ flag = true := by
  constructor
  · intro hm
    cases flag with
    | true => rfl
    | false =>
      rcases mem_generate_recommendations o dims false _ hm with
        h | h | h | h | h | h | ⟨l, h⟩ | ⟨hf, -⟩
      · exact absurd h.symm acceptableMsg_ne_calibrationMsg
      · exact absurd h.symm (sampleSizeMsg_ne_calibrationMsg _)
      · exact absurd h.symm (weakCorrMsg_ne_calibrationMsg _)
      · exact absurd h.symm (modCorrMsg_ne_calibrationMsg _)
      · exact absurd h.symm (excCorrMsg_ne_calibrationMsg _)
      · exact absurd h.symm (highMaeMsg_ne_calibrationMsg _)
      · exact absurd h.symm (weakDimsMsg_ne_calibrationMsg _)
      · exact absurd hf (by simp)
  · intro hflag
    subst hflag
    unfold generate_recommendations
    exact mem_ite_isEmpty _ _ _ (by simp [List.mem_append])

/-- When no individual recommendation applies and the flag is off, the list
is exactly the fallback. -/
theorem generate_recommendations_fallback (o : CorrelationMetrics)
    (dims : List (String × CorrelationMetrics))
    (h1 : 50 ≤ o.sample_size) (h2 : (0.80 : ℚ) ≤ o.pearson_r)
    (h3 : o.pearson_r < 0.87) (h4 : o.mean_absolute_error ≤ 1.5)
    (h5 : ∀ d ∈ dims, (0.70 : ℚ) ≤ d.2.pearson_r) :
    generate_recommendations o dims false = [acceptableMsg] := by
  have e2 : ¬(o.pearson_r < 0.70) := by
    intro hc
    have hlt : (0.70 : ℚ) < 0.80 := by norm_num
    linarith
  have e6 : dims.filterMap (fun d =>
      if d.2.pearson_r < 0.70 then
        some (d.1 ++ (" (" ++ (fmtFixed2 d.2.pearson_r ++ ")")))
      else none) = [] := by
    rw [List.filterMap_eq_nil_iff]
    intro d hd
    simp [not_lt.mpr (h5 d hd)]
  simp [generate_recommendations, e6, e2, not_lt.mpr h1, not_lt.mpr h2,
    not_le.mpr h3, not_lt.mpr h4]

/-- The calibration decision is exactly the documented threshold
disjunction. -/
theorem check_calibration_needed_iff (o : CorrelationMetrics)
    (dims : List (String × CorrelationMetrics)) :
    check_calibration_needed o dims = true ↔
      (o.pearson_r < 0.80 ∨ 1.0 < o.mean_absolute_error
        ∨ ∃ d ∈ dims, d.2.pearson_r < 0.70) := by
  unfold check_calibration_needed
  split_ifs with h1 h2 h3
  · exact ⟨fun _ => Or.inl h1, fun _ => rfl⟩
  · exact ⟨fun _ => Or.inr (Or.inl h2), fun _ => rfl⟩
  · simp only [List.any_eq_true, decide_eq_true_iff] at h3
    exact ⟨fun _ => Or.inr (Or.inr h3), fun _ => rfl⟩
  · simp only [List.any_eq_true, decide_eq_true_iff, not_exists] at h3
    constructor
    · intro hf
      exact absurd hf (by simp)
    · rintro (hx | hx | ⟨d, hd, hx⟩)
      · exact absurd hx h1
      · exact absurd hx h2
      · exact absurd ⟨hd, hx⟩ (h3 d)

/-- Lemma that `C7Prop` holds of any report assembled the way `calculate_metrics`
assembles its ≥10-pair branch. -/
theorem c7Prop_of (O : CorrelationMetrics)
    (D : List (String × CorrelationMetrics)) :
    C7Prop
      { overall_correlation := O
        dimension_correlations := D
        calibration_needed := check_calibration_needed O D
        recommendations :=
          generate_recommendations O D (check_calibration_needed O D) } := by
  refine ⟨check_calibration_needed_iff O D,
    generate_recommendations_ne_nil O D _, calibrationMsg_mem_iff O D _, ?_⟩
  rintro ⟨hs, hr1, hr2, hmae, hdims, hflag⟩
  dsimp only at hs hr1 hr2 hmae hdims hflag ⊢
  rw [hflag]
  exact generate_recommendations_fallback O D hs hr1 hr2 hmae hdims

/-- C7: with at least 10 pairs, the report's calibration flag is true
exactly when overall Pearson r < 0.80, or overall MAE > 1.0, or some
reported dimension's Pearson r < 0.70; the recommendation list is never
empty, contains the "CALIBRATION RECOMMENDED" line exactly when the flag is
set, and falls back to the acceptable-parameters message when nothing else
applies. -/
theorem c7_calibration_decision (oracle : StatsOracle) (pairs : List ScorePair)
    (h : 10 ≤ pairs.length) :
    C7Prop (calculate_metrics oracle pairs) := by
  have hlen : ¬(pairs.length < 10) := not_lt.mpr h
  unfold calculate_metrics
  rw [if_neg hlen]
  exact c7Prop_of _ _

/-- C7 witness: ten well-correlated pairs under a concrete oracle. -/
theorem c7_witness : C7Prop (calculate_metrics c7Oracle c7Pairs) :=
  c7_calibration_decision c7Oracle c7Pairs (by decide)

/-- C8 (amended): `enhance` returns the result unchanged whenever the
chatbot text is empty or whitespace-only; a failing checker call is
swallowed inside `check_text` (treated as zero matches) and so never
propagates — but the result is then returned unchanged only when no
`language_quality` dimension is present (otherwise the dimension is still
rewritten with a zero-issue annotation, as the counterexample shows). -/
theorem c8_enhancement_noop (outcome : Except String (List LTMatch))
    (result : EvaluationResult) (chatbot_text : String) (e : String) :
    (pyStrip chatbot_text = "" →
        enhance_evaluation outcome result chatbot_text = Except.ok result)
    ∧ (pyStrip chatbot_text ≠ "" →
        result.dimension_scores.lookup "language_quality" = none →
        enhance_evaluation (Except.error e) result chatbot_text = Except.ok result)
    ∧ check_text (Except.error e) = [] := by
  refine ⟨?_, ?_, rfl⟩
  · intro ht
    simp [enhance_evaluation, ht, pure, Except.pure]
  · intro ht hlk
    simp [enhance_evaluation, ht, hlk, check_text, pure, Except.pure]

/-- C8 counterexample: the claim "enhance returns the result unchanged
whenever the external grammar checker call fails" is false — with a
`language_quality` dimension present, a failed checker call still rewrites
the dimension's reasoning with a zero-issue LanguageTool annotation. -/
theorem c8_counterexample :
    (enhance_evaluation (Except.error "connection refused") c8Result
        "Guten Tag").toOption.map
      (fun r => (r.dimension_scores.lookup "language_quality").map
        (fun d => d.reasoning))
      = some (some (.str
          "ok [LanguageTool: 0 issues found - 0 grammar, 0 spelling, 0 style]"))
    ∧ (c8Result.dimension_scores.lookup "language_quality").map
        (fun d => d.reasoning) = some (.str "ok")
    ∧ ("ok" : String)
        ≠ "ok [LanguageTool: 0 issues found - 0 grammar, 0 spelling, 0 style]" := by
  refine ⟨by rfl, by rfl, by decide⟩

/-- C8 witness: whitespace-only chatbot text is a no-op even under checker
failure. -/
theorem c8_witness :
    enhance_evaluation (Except.error "boom") c8Result "   " = Except.ok c8Result :=
  (c8_enhancement_noop (Except.error "boom") c8Result "   " "boom").1 (by rfl)
